import Mathlib

/-!
A shallow embedding of the Ping mock message-routing service (`main.py`):
its data model (users, inbound messages, delivery results, stored messages,
routing rules), the routing decision procedure (`route_message`,
`is_working_hours`), the delivery simulator (`simulate_delivery`), and the
HTTP handlers over the in-memory state (`create_message`, `list_messages`,
`update_rules`, `reset_messages`), together with theorems about them.

Python strings are modelled as Lean `String`; the string operations the code
uses (`lower()`, slicing, the `in` substring test, `str(...)` of an int) are
given structural Lean definitions below so that all of them evaluate by
kernel reduction.  Pydantic `Literal` field validation, which runs whenever a
`DeliveryResult` or `Message` object is constructed, is modelled by checked
constructors returning `Except`.
-/

namespace Ping

/-! ### String helpers (models of the Python string operations used) -/

/-- Model of Python `needle in haystack` restricted to a prefix test:
`hasPrefixL s p` is `true` iff `p` is a prefix of `s`. -/
def hasPrefixL : List Char → List Char → Bool
  | _, [] => true
  | [], _ :: _ => false
  | c :: s, d :: p => c == d && hasPrefixL s p

/-- `hasSubL s p` is `true` iff `p` occurs as a contiguous substring of `s`. -/
def hasSubL : List Char → List Char → Bool
  | [], p => p.isEmpty
  | c :: s, p => hasPrefixL (c :: s) p || hasSubL s p

/-- Model of the Python substring test `needle in haystack`. -/
def strIn (needle haystack : String) : Bool :=
  hasSubL haystack.data needle.data

/-- Model of Python `s.lower()`: lower-case each character (ASCII range, via
`Char.toLower`, which is what the code relies on for its ASCII keywords). -/
def strLower (s : String) : String :=
  String.mk (s.data.map Char.toLower)

/-- Model of Python slicing `s[:n]`: the first `n` characters of `s`. -/
def strTake (s : String) (n : Nat) : String :=
  String.mk (s.data.take n)

/-- Model of the Python f-string rendering of an `Optional[str]` value:
`None` prints as the four characters `None`. -/
def optStr : Option String → String
  | some s => s
  | none => "None"

/-! ### Data model (`User`, `MessageIn`, `DeliveryResult`, `Message`) -/

/-- The `User` pydantic model. -/
structure User where
  handle : String
  name : String
  bio : String
  email : Option String := none
  phone : Option String := none
deriving DecidableEq, Repr

/-- The seeded user directory `USERS` (handle → profile), in insertion
order, as an association list. -/
def USERS : List (String × User) :=
  [ ("davit",
     { handle := "davit", name := "Davit A.",
       bio := "Building delightful products. Lover of crisp UIs and fast APIs.",
       email := some "davit@example.com", phone := some "+1234567890" }),
    ("alex",
     { handle := "alex", name := "Alex M.",
       bio := "Design, code, sound. Trying new mediums every week.",
       email := some "alex@example.com", phone := some "+1987654321" }),
    ("kai",
     { handle := "kai", name := "Kai Z.",
       bio := "Research → Prototypes → Systems. ping to collaborate.",
       email := some "kai@example.com", phone := some "+14155550123" }) ]

/-- The `MessageIn` request model.  `priority` is a string; pydantic
restricts it to the literals `normal` / `urgent` (see `priorityLiteral`),
with default `normal`. -/
structure MessageIn where
  handle : String
  subject : String
  message : String
  contact : String
  priority : String := "normal"
deriving DecidableEq, Repr

/-- The `DeliveryResult` pydantic model.  Its `channel` field is declared
`Literal['email', 'sms', 'inbox']` in the source; the run-time check that
enforces this is `mkDeliveryResult` below. -/
structure DeliveryResult where
  channel : String
  delivered : Bool
  debug : String
  auto_reply : Option String := none
deriving DecidableEq, Repr

/-- The `Message` pydantic model (persisted record). `priority` and
`decided_channel` are `Literal`-typed in the source; the run-time check is
`mkMessage` below. -/
structure Message where
  id : String
  created_at : String
  handle : String
  subject : String
  message : String
  contact : String
  priority : String
  decided_channel : String
  deliveries : List DeliveryResult
deriving DecidableEq, Repr

/-! ### Routing rules

`ROUTING_RULES` is an open JSON dict in the source; the code only ever reads
the conventional keys below, each with `.get` and a default, so the dict is
embedded as a structure of `Option` fields (a `none` field is an absent
key). -/

/-- The `working_hours` sub-dict: keys `start`, `end`, `weekdays_only`. -/
structure WorkingHoursRule where
  start : Option Int := none
  «end» : Option Int := none
  weekdays_only : Option Bool := none
deriving DecidableEq, Repr

/-- The `subject_keywords` sub-dict: keys `keywords`, `channel`. -/
structure SubjectKeywordsRule where
  keywords : Option (List String) := none
  channel : Option String := none
deriving DecidableEq, Repr

/-- The `outside_working_hours` sub-dict: keys `channel`, `auto_reply`. -/
structure OutsideWorkingHoursRule where
  channel : Option String := none
  auto_reply : Option String := none
deriving DecidableEq, Repr

/-- The routing-rules dict: conventional top-level keys, each optional.
The `priority` sub-dict (priority value → channel) is an association
list. -/
structure RoutingRules where
  priority : Option (List (String × String)) := none
  subject_keywords : Option SubjectKeywordsRule := none
  outside_working_hours : Option OutsideWorkingHoursRule := none
  fallback : Option String := none
  working_hours : Option WorkingHoursRule := none
deriving DecidableEq, Repr

/-- `DEFAULT_RULES` from the source, verbatim. -/
def DEFAULT_RULES : RoutingRules :=
  { priority := some [("urgent", "sms")],
    subject_keywords := some
      { keywords := some ["quote", "collab"], channel := some "email" },
    outside_working_hours := some
      { channel := some "email",
        auto_reply := some "Thanks for your message. I'm currently away and will reply during working hours." },
    fallback := some "inbox",
    working_hours := some
      { start := some 9, «end» := some 17, weekdays_only := some true } }

/-- The empty rules object `{}` (every key absent). -/
def EMPTY_RULES : RoutingRules := {}

/-! ### Time -/

/-- The two components of `datetime.utcnow()` that the code reads:
`weekday()` (Monday = 0 .. Sunday = 6) and `hour` (0..23, UTC). -/
structure DateTime where
  weekday : Nat
  hour : Nat
deriving DecidableEq, Repr

/-! ### Router (`is_working_hours`, `route_message`) -/

/-- `is_working_hours(dt)`: reads `rules.working_hours` (default
`{start: 9, end: 17, weekdays_only: true}`), fails on weekends when
`weekdays_only`, otherwise tests the half-open hour range
`start <= dt.hour < end`. -/
def is_working_hours (rules : RoutingRules) (dt : DateTime) : Bool :=
  let wh := rules.working_hours.getD
    { start := some 9, «end» := some 17, weekdays_only := some true }
  let start := wh.start.getD 9
  let stop := wh.«end».getD 17
  let weekdays_only := wh.weekdays_only.getD true
  if weekdays_only && decide (5 ≤ dt.weekday) then false
  else decide (start ≤ (dt.hour : Int) ∧ (dt.hour : Int) < stop)

/-- The subject-keyword test inside `route_message`: lower-case each
configured keyword and test each for substring occurrence in the
lower-cased subject. -/
def keyword_match (sub_rule : SubjectKeywordsRule) (subject : String) : Bool :=
  let keywords := (sub_rule.keywords.getD []).map strLower
  keywords.any (fun k => strIn k (strLower subject))

/-- `route_message(msg)`: the four-branch decision procedure, evaluated
against the given rules and current time; returns the decided channel and
an optional auto-reply. -/
def route_message (rules : RoutingRules) (now : DateTime) (msg : MessageIn) :
    String × Option String :=
  let prio_map := rules.priority.getD []
  match prio_map.lookup msg.priority with
  | some ch => (ch, none)
  | none =>
    let sub_rule := rules.subject_keywords.getD {}
    if keyword_match sub_rule msg.subject then
      (sub_rule.channel.getD "email", none)
    else if !is_working_hours rules now then
      let owh := rules.outside_working_hours.getD {}
      (owh.channel.getD "email", owh.auto_reply)
    else
      (rules.fallback.getD "inbox", none)

/-! ### Pydantic literal validation and the delivery simulator -/

/-- The permitted values of the `Literal['email', 'sms', 'inbox']` channel
fields of `DeliveryResult` and `Message`. -/
def channelLiteral (c : String) : Bool :=
  c == "email" || c == "sms" || c == "inbox"

/-- The permitted values of the `Literal['normal', 'urgent']` priority
fields of `MessageIn` and `Message`. -/
def priorityLiteral (p : String) : Bool :=
  p == "normal" || p == "urgent"

/-- Errors a request handler can surface: an explicit `HTTPException`
(status, detail) or an uncaught pydantic `ValidationError` (HTTP 500). -/
inductive RequestError where
  | httpError (status : Nat) (detail : String)
  | validationError (detail : String)
deriving DecidableEq, Repr

/-- Constructing a `DeliveryResult(...)`: pydantic validates the
`channel` field against its `Literal` type and raises on any other
value. -/
def mkDeliveryResult (channel : String) (delivered : Bool) (debug : String)
    (auto_reply : Option String) : Except RequestError DeliveryResult :=
  if channelLiteral channel then
    .ok { channel, delivered, debug, auto_reply }
  else
    .error (.validationError "DeliveryResult.channel: unexpected value")

/-- Constructing a `Message(...)`: pydantic validates `priority` and
`decided_channel` against their `Literal` types and raises on any other
value. -/
def mkMessage (id created_at handle subject message contact priority
    decided_channel : String) (deliveries : List DeliveryResult) :
    Except RequestError Message :=
  if priorityLiteral priority && channelLiteral decided_channel then
    .ok { id, created_at, handle, subject, message, contact, priority,
          decided_channel, deliveries }
  else
    .error (.validationError "Message: unexpected literal value")

/-- The recipient email rendered into the `[EMAIL]` trace: the user's
`email` field when the handle is known (with `None` rendered by the
f-string), otherwise the string `unknown`. -/
def emailFor (handle : String) : String :=
  match USERS.lookup handle with
  | some u => optStr u.email
  | none => "unknown"

/-- The recipient phone rendered into the `[SMS]` trace. -/
def phoneFor (handle : String) : String :=
  match USERS.lookup handle with
  | some u => optStr u.phone
  | none => "unknown"

/-- `simulate_delivery(channel, msg, auto_reply)`: one `DeliveryResult` per
message, branching on the channel; unknown channels take the `[UNKNOWN]`
branch.  Construction of each `DeliveryResult` goes through pydantic
validation (`mkDeliveryResult`). -/
def simulate_delivery (channel : String) (msg : MessageIn)
    (auto_reply : Option String) : Except RequestError (List DeliveryResult) :=
  if channel == "email" then do
    let debug := "[EMAIL] To: " ++ emailFor msg.handle ++ " | From: " ++
      msg.contact ++ " | Subj: " ++ msg.subject
    let d ← mkDeliveryResult "email" true debug auto_reply
    pure [d]
  else if channel == "sms" then do
    let debug := "[SMS] To: " ++ phoneFor msg.handle ++ " | From: " ++
      msg.contact ++ " | Msg: " ++ strTake msg.message 60 ++ "..."
    let d ← mkDeliveryResult "sms" true debug auto_reply
    pure [d]
  else if channel == "inbox" then do
    let debug := "[INBOX] Stored for " ++ msg.handle ++ " | From: " ++
      msg.contact ++ " | Subj: " ++ msg.subject
    let d ← mkDeliveryResult "inbox" true debug auto_reply
    pure [d]
  else do
    let debug := "[UNKNOWN] Channel " ++ channel ++ " not implemented"
    let d ← mkDeliveryResult channel false debug auto_reply
    pure [d]

/-! ### Application state and HTTP handlers -/

/-- The process-wide in-memory state: the current `ROUTING_RULES` and the
`MESSAGES` log (in append order). -/
structure AppState where
  rules : RoutingRules
  messages : List Message
deriving DecidableEq, Repr

/-- The state at process start: default rules, empty log. -/
def initialState : AppState :=
  { rules := DEFAULT_RULES, messages := [] }

/-- `GET /api/messages`: the stored messages, most recently appended
first. -/
def list_messages (st : AppState) : List Message :=
  st.messages.reverse

/-- `POST /api/messages`: validate the handle (404 if unknown), route,
simulate delivery, build the `Message` with `id = str(len(MESSAGES) + 1)`
and append it.  `now` and `created_at` stand for `datetime.utcnow()` and
`now_iso()`.  Returns the state after the request together with the
response (the stored message, or the error raised). -/
def create_message (st : AppState) (now : DateTime) (created_at : String)
    (payload : MessageIn) : AppState × Except RequestError Message :=
  if (USERS.lookup payload.handle).isNone then
    (st, .error (.httpError 404 "User not found"))
  else
    let routed := route_message st.rules now payload
    match simulate_delivery routed.1 payload routed.2 with
    | .error e => (st, .error e)
    | .ok deliveries =>
      match mkMessage (Nat.repr (st.messages.length + 1)) created_at
          payload.handle payload.subject payload.message payload.contact
          payload.priority routed.1 deliveries with
      | .error e => (st, .error e)
      | .ok msg => ({ st with messages := st.messages ++ [msg] }, .ok msg)

/-- Response body of `PUT /api/rules`. -/
structure UpdateResponse where
  ok : Bool
  updated : RoutingRules
deriving DecidableEq, Repr

/-- `PUT /api/rules`: replace the rules wholesale (the body is already
known to be an object once it parses into `RoutingRules`). -/
def update_rules (st : AppState) (new_rules : RoutingRules) :
    AppState × UpdateResponse :=
  ({ st with rules := new_rules }, { ok := true, updated := new_rules })

/-- Response body of `DELETE /api/messages`. -/
structure ResetResponse where
  ok : Bool
  count : Nat
deriving DecidableEq, Repr

/-- `DELETE /api/messages`: `MESSAGES.clear()` then
`return {"ok": True, "count": 0}`. -/
def reset_messages (st : AppState) : AppState × ResetResponse :=
  ({ st with messages := [] }, { ok := true, count := 0 })

/-! ### Reachable states -/

/-- States reachable from process start through the state-changing
handlers.  A `create` step covers both outcomes (on error the state is
returned unchanged); its payload carries pydantic's `Literal` guarantee on
`priority`, which FastAPI enforces before the handler runs. -/
inductive Reachable : AppState → Prop where
  | init : Reachable initialState
  | create {st : AppState} (now : DateTime) (created_at : String)
      {p : MessageIn} (hp : priorityLiteral p.priority = true) :
      Reachable st → Reachable (create_message st now created_at p).1
  | update {st : AppState} (r : RoutingRules) :
      Reachable st → Reachable (update_rules st r).1
  | reset {st : AppState} :
      Reachable st → Reachable (reset_messages st).1

/-! ### Further definitions used by the theorems -/

/-- The numeric value of a decimal digit character. -/
def digitVal (c : Char) : Nat := c.toNat - 48

/-- Left fold reading a list of decimal digit characters back into a
natural number (inverse of `Nat.repr` on its image). -/
def parseAcc (acc : Nat) : List Char → Nat
  | [] => acc
  | c :: cs => parseAcc (10 * acc + digitVal c) cs

/-- The id column of a log holding `n` messages created sequentially:
`["1", "2", ..., str n]`. -/
def canonicalIds (n : Nat) : List String :=
  (List.range n).map (fun i => Nat.repr (i + 1))

/-- A concrete well-formed request payload addressed to the seeded user
`davit`. -/
def examplePayload : MessageIn :=
  { handle := "davit", subject := "hello", message := "hi there",
    contact := "a@b.c", priority := "normal" }

/-- One concrete `POST /api/messages` request from the initial state, on a
Wednesday at 10:00 UTC. -/
def exampleCreate : AppState × Except RequestError Message :=
  create_message initialState ⟨2, 10⟩ "2026-01-07T10:00:00Z" examplePayload

/-- The message `exampleCreate` stores. -/
def exampleMessage : Message :=
  { id := "1", created_at := "2026-01-07T10:00:00Z", handle := "davit",
    subject := "hello", message := "hi there", contact := "a@b.c",
    priority := "normal", decided_channel := "inbox",
    deliveries := [{ channel := "inbox",
                     delivered := true,
                     debug := "[INBOX] Stored for davit | From: a@b.c | Subj: hello",
                     auto_reply := none }] }

/-- A payload whose handle is not in the user directory. -/
def unknownHandlePayload : MessageIn :=
  { handle := "nobody", subject := "hello", message := "hi",
    contact := "a@b.c", priority := "normal" }

/-- Rule data naming a channel outside the `{email, sms, inbox}` enum. -/
def pigeonRules : RoutingRules :=
  { priority := some [("urgent", "pigeon")] }

/-- An urgent payload to a seeded user (triggers the priority rule). -/
def urgentPayload : MessageIn :=
  { handle := "davit", subject := "hi", message := "hi",
    contact := "a@b.c", priority := "urgent" }

/-- A normal-priority payload whose subject contains the keyword `quote`
in mixed case. -/
def quotePayload : MessageIn :=
  { handle := "alex", subject := "Re: QUOTE for project", message := "m",
    contact := "c@d.e", priority := "normal" }

end Ping
namespace Ping

lemma strLower_quote : strLower "quote" = "quote" := rfl

lemma strLower_collab : strLower "collab" = "collab" := rfl

lemma toDigitsCore_append (b : Nat) :
    ∀ (fuel n : Nat) (ds : List Char),
      Nat.toDigitsCore b fuel n ds = Nat.toDigitsCore b fuel n [] ++ ds := by
  intro fuel
  induction fuel with
  | zero => intro n ds; simp [Nat.toDigitsCore]
  | succ f ih =>
    intro n ds
    simp only [Nat.toDigitsCore]
    by_cases h : n / b = 0
    · simp [h]
    · simp only [h, if_false]
      rw [ih (n / b) (Nat.digitChar (n % b) :: ds),
          ih (n / b) [Nat.digitChar (n % b)]]
      simp

lemma digitVal_digitChar : ∀ n : Nat, n < 10 → digitVal (Nat.digitChar n) = n := by
  decide

lemma parseAcc_append (xs : List Char) :
    ∀ (acc : Nat) (ys : List Char),
      parseAcc acc (xs ++ ys) = parseAcc (parseAcc acc xs) ys := by
  induction xs with
  | nil => intro acc ys; rfl
  | cons c cs ih => intro acc ys; exact ih (10 * acc + digitVal c) ys

lemma parseAcc_single (a : Nat) (c : Char) : parseAcc a [c] = 10 * a + digitVal c := rfl

lemma parseAcc_toDigitsCore :
    ∀ (n fuel : Nat), n < fuel →
      parseAcc 0 (Nat.toDigitsCore 10 fuel n []) = n := by
  intro n
  induction n using Nat.strong_induction_on with
  | _ n ih =>
    intro fuel hfuel
    match fuel, hfuel with
    | f + 1, hfuel =>
      rw [show Nat.toDigitsCore 10 (f + 1) n [] =
            if n / 10 = 0 then [Nat.digitChar (n % 10)]
            else Nat.toDigitsCore 10 f (n / 10) [Nat.digitChar (n % 10)] from rfl]
      by_cases h : n / 10 = 0
      · rw [if_pos h, parseAcc_single, digitVal_digitChar (n % 10) (by omega)]
        omega
      · rw [if_neg h, toDigitsCore_append, parseAcc_append,
            ih (n / 10) (Nat.div_lt_self (by omega) (by omega)) f (by omega),
            parseAcc_single, digitVal_digitChar (n % 10) (by omega)]
        omega

lemma parseAcc_repr (n : Nat) : parseAcc 0 (Nat.repr n).data = n := by
  show parseAcc 0 (Nat.toDigitsCore 10 (n + 1) n []) = n
  exact parseAcc_toDigitsCore n (n + 1) (Nat.lt_succ_self n)

lemma nat_repr_injective : Function.Injective Nat.repr := by
  intro m n h
  calc m = parseAcc 0 (Nat.repr m).data := (parseAcc_repr m).symm
    _ = parseAcc 0 (Nat.repr n).data := by rw [h]
    _ = n := parseAcc_repr n

end Ping
namespace Ping

/-- Helper: whenever the `working_hours` entry of the rules is either absent
or the default one, `is_working_hours` holds exactly on weekdays with the
UTC hour in the half-open range `9 ≤ hour < 17`. -/
lemma is_working_hours_std (rules : RoutingRules) (dt : DateTime)
    (h : rules.working_hours.getD
          { start := some 9, «end» := some 17, weekdays_only := some true } =
        { start := some 9, «end» := some 17, weekdays_only := some true }) :
    (is_working_hours rules dt = true) ↔
      (dt.weekday < 5 ∧ 9 ≤ dt.hour ∧ dt.hour < 17) := by
  unfold is_working_hours
  rw [h]
  by_cases h5 : 5 ≤ dt.weekday
  · simp [h5]
  · simp [h5, decide_eq_true_iff]
    omega

/-- Helper: `str(n)` for `n = 1`. -/
lemma nat_repr_one : Nat.repr 1 = "1" := rfl

/-- Helper: a `POST /api/messages` request either fails and returns the
state unchanged, or appends exactly one message whose id is
`str(len(MESSAGES) + 1)`. -/
lemma create_message_shape (st : AppState) (now : DateTime) (iso : String)
    (p : MessageIn) :
    (∃ e, create_message st now iso p = (st, Except.error e)) ∨
    (∃ m, create_message st now iso p =
        ({ st with messages := st.messages ++ [m] }, Except.ok m) ∧
      m.id = Nat.repr (st.messages.length + 1)) := by
  unfold create_message
  split
  · exact Or.inl ⟨_, rfl⟩
  · dsimp only
    split
    · exact Or.inl ⟨_, rfl⟩
    · split
      · exact Or.inl ⟨_, rfl⟩
      · rename_i msg heq
        refine Or.inr ⟨msg, rfl, ?_⟩
        unfold mkMessage at heq
        split at heq
        · injection heq with h'
          rw [← h']
        · simp at heq

/-- Helper: on a successful create, the new state is the old one with the
message appended, and the stored id is `str(len(MESSAGES) + 1)`. -/
lemma create_message_ok_id {st : AppState} {now : DateTime} {iso : String}
    {p : MessageIn} {st2 : AppState} {m : Message}
    (h : create_message st now iso p = (st2, Except.ok m)) :
    st2 = { st with messages := st.messages ++ [m] } ∧
      m.id = Nat.repr (st.messages.length + 1) := by
  rcases create_message_shape st now iso p with ⟨e, he⟩ | ⟨m', he, hid⟩
  · rw [h] at he
    simp at he
  · rw [h] at he
    have ha : st2 = { st with messages := st.messages ++ [m'] } :=
      congrArg Prod.fst he
    have hb : (Except.ok m : Except RequestError Message) = Except.ok m' :=
      congrArg Prod.snd he
    injection hb with hb
    subst hb
    exact ⟨ha, hid⟩

/-- Helper: in every reachable state the id column of the log is
`["1", "2", ..., str n]`. -/
lemma reachable_ids {st : AppState} (h : Reachable st) :
    st.messages.map Message.id = canonicalIds st.messages.length := by
  induction h with
  | init => rfl
  | @create st' now iso p hp hprev ih =>
    rcases create_message_shape st' now iso p with ⟨e, he⟩ | ⟨m, he, hid⟩
    · rw [he]; exact ih
    · rw [he]
      show (st'.messages ++ [m]).map Message.id
          = canonicalIds (st'.messages ++ [m]).length
      rw [List.map_append, ih]
      simp [canonicalIds, List.range_succ, hid]
  | @update st' r hprev ih => exact ih
  | @reset st' hprev ih => rfl

/-- Claim C1: under the default rules every message with priority
`urgent` is routed to channel `sms` with no auto-reply, for every subject
and every time (the priority rule short-circuits the rest). -/
theorem urgent_priority_routes_sms (now : DateTime) (msg : MessageIn)
    (h : msg.priority = "urgent") :
    route_message DEFAULT_RULES now msg = ("sms", none) := by
  simp [route_message, DEFAULT_RULES, h, List.lookup]

/-- Witness for C1: a concrete urgent message, routed on Saturday 20:00
UTC. -/
theorem urgent_priority_routes_sms_witness :
    urgentPayload.priority = "urgent" ∧
    route_message DEFAULT_RULES ⟨5, 20⟩ urgentPayload = ("sms", none) :=
  ⟨rfl, urgent_priority_routes_sms ⟨5, 20⟩ urgentPayload rfl⟩

/-- Claim C2: under the default rules, a `normal`-priority message whose
subject contains `quote` or `collab` case-insensitively is routed to
channel `email` with no auto-reply at every time; and with an empty
configured keyword list the keyword rule matches no subject. -/
theorem keyword_subject_routes_email (now : DateTime) (msg : MessageIn)
    (hp : msg.priority = "normal")
    (hk : strIn "quote" (strLower msg.subject) = true ∨
          strIn "collab" (strLower msg.subject) = true) :
    route_message DEFAULT_RULES now msg = ("email", none) ∧
      ∀ (subject : String) (ch : Option String),
        keyword_match { keywords := some [], channel := ch } subject = false := by
  refine ⟨?_, fun subject ch => rfl⟩
  have hm : keyword_match
      { keywords := some ["quote", "collab"], channel := some "email" }
      msg.subject = true := by
    simp [keyword_match, strLower_quote, strLower_collab]
    rcases hk with hk | hk
    · exact Or.inl hk
    · exact Or.inr hk
  simp [route_message, DEFAULT_RULES, hp, List.lookup, hm]

/-- Witness for C2: a mixed-case `QUOTE` subject, routed on Saturday
20:00 UTC. -/
theorem keyword_subject_routes_email_witness :
    quotePayload.priority = "normal" ∧
    strIn "quote" (strLower quotePayload.subject) = true ∧
    (route_message DEFAULT_RULES ⟨5, 20⟩ quotePayload = ("email", none) ∧
      ∀ (subject : String) (ch : Option String),
        keyword_match { keywords := some [], channel := ch } subject = false) :=
  ⟨rfl, rfl, keyword_subject_routes_email ⟨5, 20⟩ quotePayload rfl (Or.inl rfl)⟩

/-- Claim C3: under the default rules, a `normal`-priority message whose
subject matches no keyword is routed, at any weekend time or any UTC hour
outside `9 ≤ hour < 17`, to channel `email` with the configured away
auto-reply. -/
theorem no_keyword_outside_hours_email_away (now : DateTime) (msg : MessageIn)
    (hp : msg.priority = "normal")
    (hq : strIn "quote" (strLower msg.subject) = false)
    (hc : strIn "collab" (strLower msg.subject) = false)
    (ht : 5 ≤ now.weekday ∨ now.hour < 9 ∨ 17 ≤ now.hour) :
    route_message DEFAULT_RULES now msg =
      ("email", some "Thanks for your message. I'm currently away and will reply during working hours.") := by
  have hm : keyword_match
      { keywords := some ["quote", "collab"], channel := some "email" }
      msg.subject = false := by
    simp [keyword_match, strLower_quote, strLower_collab, hq, hc]
  have hw : is_working_hours DEFAULT_RULES now = false := by
    rw [← Bool.not_eq_true]
    rw [is_working_hours_std DEFAULT_RULES now rfl]
    omega
  simp [route_message, DEFAULT_RULES, hp, List.lookup, hm, hw]
  exact hw

/-- Witness for C3: a keyword-free message on Saturday 10:00 UTC. -/
theorem no_keyword_outside_hours_email_away_witness :
    examplePayload.priority = "normal" ∧
    strIn "quote" (strLower examplePayload.subject) = false ∧
    strIn "collab" (strLower examplePayload.subject) = false ∧
    (5 ≤ (⟨5, 10⟩ : DateTime).weekday ∨ (⟨5, 10⟩ : DateTime).hour < 9 ∨
      17 ≤ (⟨5, 10⟩ : DateTime).hour) ∧
    route_message DEFAULT_RULES ⟨5, 10⟩ examplePayload =
      ("email", some "Thanks for your message. I'm currently away and will reply during working hours.") :=
  ⟨rfl, rfl, rfl, Or.inl (by decide),
   no_keyword_outside_hours_email_away ⟨5, 10⟩ examplePayload rfl rfl rfl
     (Or.inl (by decide))⟩

/-- Claim C4: under the default rules, a `normal`-priority message whose
subject matches no keyword, at a weekday time with UTC hour in
`9 ≤ hour < 17`, falls through to the fallback channel `inbox` with no
auto-reply. -/
theorem no_keyword_working_hours_fallback_inbox (now : DateTime)
    (msg : MessageIn)
    (hp : msg.priority = "normal")
    (hq : strIn "quote" (strLower msg.subject) = false)
    (hc : strIn "collab" (strLower msg.subject) = false)
    (hw : now.weekday < 5) (h9 : 9 ≤ now.hour) (h17 : now.hour < 17) :
    route_message DEFAULT_RULES now msg = ("inbox", none) := by
  have hm : keyword_match
      { keywords := some ["quote", "collab"], channel := some "email" }
      msg.subject = false := by
    simp [keyword_match, strLower_quote, strLower_collab, hq, hc]
  have hwh : is_working_hours DEFAULT_RULES now = true :=
    (is_working_hours_std DEFAULT_RULES now rfl).mpr ⟨hw, h9, h17⟩
  simp [route_message, DEFAULT_RULES, hp, List.lookup, hm, hwh]
  exact hwh

/-- Witness for C4: a keyword-free message on Wednesday 10:00 UTC. -/
theorem no_keyword_working_hours_fallback_inbox_witness :
    examplePayload.priority = "normal" ∧
    strIn "quote" (strLower examplePayload.subject) = false ∧
    strIn "collab" (strLower examplePayload.subject) = false ∧
    (⟨2, 10⟩ : DateTime).weekday < 5 ∧ 9 ≤ (⟨2, 10⟩ : DateTime).hour ∧
    (⟨2, 10⟩ : DateTime).hour < 17 ∧
    route_message DEFAULT_RULES ⟨2, 10⟩ examplePayload = ("inbox", none) :=
  ⟨rfl, rfl, rfl, by decide, by decide, by decide,
   no_keyword_working_hours_fallback_inbox ⟨2, 10⟩ examplePayload rfl rfl rfl
     (by decide) (by decide) (by decide)⟩

/-- Claim C5 (amended): after the rules are replaced with `{}`, a routing
decision falls through to the fallback channel `inbox` exactly when `now`
is inside the default working hours (weekday, `9 ≤ hour < 17` UTC);
outside them the hardcoded outside-working-hours defaults apply instead,
giving channel `email` with no auto-reply. -/
theorem empty_rules_route (st : AppState) (now : DateTime) (msg : MessageIn) :
    route_message (update_rules st EMPTY_RULES).1.rules now msg =
      if now.weekday < 5 ∧ 9 ≤ now.hour ∧ now.hour < 17 then ("inbox", none)
      else ("email", none) := by
  show route_message EMPTY_RULES now msg = _
  by_cases hw : now.weekday < 5 ∧ 9 ≤ now.hour ∧ now.hour < 17
  · have hwh : is_working_hours EMPTY_RULES now = true :=
      (is_working_hours_std EMPTY_RULES now rfl).mpr hw
    simp [route_message, EMPTY_RULES, keyword_match, hwh, hw]
    exact hwh
  · have hwh : is_working_hours EMPTY_RULES now = false := by
      rw [← Bool.not_eq_true, is_working_hours_std EMPTY_RULES now rfl]
      exact hw
    simp [route_message, EMPTY_RULES, keyword_match, hwh, hw]
    exact hwh

/-- Counterexample to C5 as stated: after `PUT /api/rules {}`, a message
routed on Saturday 10:00 UTC is decided to channel `email`, not the
fallback `inbox`. -/
theorem empty_rules_route_counterexample :
    route_message (update_rules initialState EMPTY_RULES).1.rules ⟨5, 10⟩
        { handle := "davit", subject := "hello", message := "hi",
          contact := "a@b.c", priority := "normal" } = ("email", none) ∧
    (("email", (none : Option String)) ≠ ("inbox", (none : Option String))) :=
  ⟨rfl, by decide⟩

/-- Claim C6 (code bug): with rule data naming the out-of-enum channel
`pigeon`, the router decides `pigeon`, but the delivery simulator does not
produce a `delivered = false` result: pydantic `Literal` validation raises
on constructing the `DeliveryResult`, so message creation fails with a
`ValidationError` (HTTP 500) and nothing is stored. -/
theorem unknown_channel_validation_error :
    route_message pigeonRules ⟨2, 10⟩ urgentPayload = ("pigeon", none) ∧
    simulate_delivery "pigeon" urgentPayload none =
      Except.error
        (RequestError.validationError "DeliveryResult.channel: unexpected value") ∧
    create_message { rules := pigeonRules, messages := [] } ⟨2, 10⟩
        "2026-01-07T10:00:00Z" urgentPayload =
      ({ rules := pigeonRules, messages := [] },
       Except.error
         (RequestError.validationError "DeliveryResult.channel: unexpected value")) :=
  ⟨rfl, rfl, rfl⟩

/-- Claim C7 (amended): the clear operation empties the log, leaves the
rules alone, and returns `ok` with the constant count `0` (the post-clear
size), irrespective of how many messages were cleared. -/
theorem reset_clears_and_returns_zero (st : AppState) :
    (reset_messages st).1.messages = [] ∧
    (reset_messages st).1.rules = st.rules ∧
    (reset_messages st).2 = { ok := true, count := 0 } :=
  ⟨rfl, rfl, rfl⟩

/-- Counterexample to C7 as stated: clearing a log that holds one message
returns count `0`, not the count `1` of messages that were cleared. -/
theorem reset_count_counterexample :
    exampleCreate.1.messages.length = 1 ∧
    (reset_messages exampleCreate.1).2.count = 0 ∧
    (reset_messages exampleCreate.1).2.count ≠ exampleCreate.1.messages.length :=
  ⟨rfl, rfl, by decide⟩

/-- Claim C8: in every reachable state the log's ids are exactly
`["1", "2", ..., str n]` — sequential from `"1"`, hence unique (`Nodup`)
and strictly increasing in creation order; a rules update leaves the log
unchanged; and after a clear the next successfully created message gets
id `"1"` again. -/
theorem message_ids_sequential (st : AppState) (h : Reachable st) :
    st.messages.map Message.id = canonicalIds st.messages.length
    ∧ (st.messages.map Message.id).Nodup
    ∧ (∀ r : RoutingRules, (update_rules st r).1.messages = st.messages)
    ∧ (∀ (now : DateTime) (iso : String) (p : MessageIn) (st2 : AppState)
        (m : Message),
        create_message (reset_messages st).1 now iso p = (st2, Except.ok m) →
        m.id = "1") := by
  refine ⟨reachable_ids h, ?_, fun r => rfl, ?_⟩
  · rw [reachable_ids h]
    refine List.Nodup.map ?_ (List.nodup_range _)
    intro a b hab
    have := nat_repr_injective hab
    omega
  · intro now iso p st2 m hcm
    have h2 := (create_message_ok_id hcm).2
    simpa [reset_messages, nat_repr_one] using h2

/-- Witness for C8: the reachable state holding exactly the one message
created by `exampleCreate`. -/
theorem message_ids_sequential_witness :
    exampleCreate.1.messages.map Message.id =
        canonicalIds exampleCreate.1.messages.length
    ∧ (exampleCreate.1.messages.map Message.id).Nodup
    ∧ (∀ r : RoutingRules,
        (update_rules exampleCreate.1 r).1.messages = exampleCreate.1.messages)
    ∧ (∀ (now : DateTime) (iso : String) (p : MessageIn) (st2 : AppState)
        (m : Message),
        create_message (reset_messages exampleCreate.1).1 now iso p =
          (st2, Except.ok m) →
        m.id = "1") :=
  message_ids_sequential exampleCreate.1
    (Reachable.create ⟨2, 10⟩ "2026-01-07T10:00:00Z" rfl Reachable.init)

/-- Claim C9: whenever a create request succeeds, the listing of the new
state is the newly stored message followed by the previous listing — i.e.
the list operation returns the stored messages in reverse append order,
most recently appended first. -/
theorem list_most_recent_first (st : AppState) (now : DateTime) (iso : String)
    (p : MessageIn) (st2 : AppState) (m : Message)
    (h : create_message st now iso p = (st2, Except.ok m)) :
    list_messages st2 = m :: list_messages st := by
  obtain ⟨h1, -⟩ := create_message_ok_id h
  subst h1
  simp [list_messages]

/-- Witness for C9: the concrete create request `exampleCreate`. -/
theorem list_most_recent_first_witness :
    create_message initialState ⟨2, 10⟩ "2026-01-07T10:00:00Z" examplePayload =
      ({ rules := DEFAULT_RULES, messages := [exampleMessage] },
       Except.ok exampleMessage) ∧
    list_messages { rules := DEFAULT_RULES, messages := [exampleMessage] } =
      exampleMessage :: list_messages initialState :=
  ⟨rfl,
   list_most_recent_first initialState ⟨2, 10⟩ "2026-01-07T10:00:00Z"
     examplePayload { rules := DEFAULT_RULES, messages := [exampleMessage] }
     exampleMessage rfl⟩

/-- Claim C10: a create request whose handle is absent from the user
directory fails with a 404 `User not found` error and leaves the state
unchanged — nothing appended to the log, rules untouched. -/
theorem unknown_handle_404 (st : AppState) (now : DateTime) (iso : String)
    (p : MessageIn) (h : USERS.lookup p.handle = none) :
    create_message st now iso p =
      (st, Except.error (RequestError.httpError 404 "User not found")) ∧
    (create_message st now iso p).1.messages = st.messages ∧
    (create_message st now iso p).1.rules = st.rules := by
  have hmain : create_message st now iso p =
      (st, Except.error (RequestError.httpError 404 "User not found")) := by
    unfold create_message
    rw [h]
    rfl
  exact ⟨hmain, by rw [hmain], by rw [hmain]⟩

/-- Witness for C10: a request addressed to the unknown handle `nobody`. -/
theorem unknown_handle_404_witness :
    USERS.lookup unknownHandlePayload.handle = none ∧
    (create_message initialState ⟨2, 10⟩ "t" unknownHandlePayload =
      (initialState, Except.error (RequestError.httpError 404 "User not found")) ∧
    (create_message initialState ⟨2, 10⟩ "t" unknownHandlePayload).1.messages =
      initialState.messages ∧
    (create_message initialState ⟨2, 10⟩ "t" unknownHandlePayload).1.rules =
      initialState.rules) :=
  ⟨rfl, unknown_handle_404 initialState ⟨2, 10⟩ "t" unknownHandlePayload rfl⟩

end Ping
